import Mathlib

/-!
Verification of the UniThrift checkout handler.

Shallow embedding of the `POST /api/cart/checkout` handler of
`server/index.js` (the Order Intake & Pricing Resolver), together with the
JavaScript value coercions it relies on.

JSON request bodies are modelled by `JVal`; JavaScript runtime numbers
(results of `Number(...)`, which may be `NaN` or infinite) by `JNum`, with
finite values carried as rationals.  Two deliberate modelling bounds, neither
observable by any theorem below: the decimal rendering of a non-integral
number (`toString` on `Rat`) and string-to-number parsing of exponent/hex
literals (mapped to `NaN`) do not follow the exact ECMAScript formatting
rules; all coercions actually exercised (integers, plain decimals, the
identifier/price/quantity fields) follow them.
-/

namespace UniThrift

/-!
JSON-decoded JavaScript values, as produced by `express.json()`:
`undefined` is included because missing-property access yields it.  Arrays
and objects carry their own list types (`JList`, `JObj`) so that every
function below is structurally recursive and evaluates inside the kernel.
-/
mutual

/-- A JSON-decoded JavaScript value. -/
inductive JVal : Type where
  | undefined : JVal
  | null : JVal
  | bool : Bool → JVal
  | num : ℚ → JVal
  | str : String → JVal
  | arr : JList → JVal
  | obj : JObj → JVal

/-- The element list of a JSON array. -/
inductive JList : Type where
  | nil : JList
  | cons : JVal → JList → JList

/-- The key-value field list of a JSON object (keys unique, as produced by
`JSON.parse`). -/
inductive JObj : Type where
  | nil : JObj
  | cons : String → JVal → JObj → JObj

end

/-- Build a `JList` from a Lean list. -/
def jarr : List JVal → JList
  | [] => .nil
  | v :: vs => .cons v (jarr vs)

/-- Build a `JObj` from a Lean association list. -/
def jobj : List (String × JVal) → JObj
  | [] => .nil
  | (k, v) :: fs => .cons k v (jobj fs)

/-- The elements of a `JList` as a Lean list. -/
def JList.toList : JList → List JVal
  | .nil => []
  | .cons v vs => v :: vs.toList

/-- Own-property lookup on an object. -/
def JObj.find : JObj → String → Option JVal
  | .nil, _ => none
  | .cons k v fs, key => if k = key then some v else fs.find key

/-- A JavaScript runtime number: finite (as a rational), `NaN`, or infinite. -/
inductive JNum : Type where
  | fin : ℚ → JNum
  | nan : JNum
  | posInf : JNum
  | negInf : JNum
  deriving Repr, DecidableEq

/-- `Number.isFinite`. -/
def JNum.isFinite : JNum → Bool
  | .fin _ => true
  | _ => false

/-- JavaScript truthiness of a JSON-decoded value (`if (v)`, `v || d`).
JSON numbers are finite, so `NaN` does not arise here; `0` and `""` are
falsy, every object and array is truthy. -/
def jsTruthy : JVal → Bool
  | .undefined => false
  | .null => false
  | .bool b => b
  | .num q => q ≠ 0
  | .str s => s ≠ ""
  | .arr _ => true
  | .obj _ => true

/-- JavaScript `a || b`. -/
def jsOr (a b : JVal) : JVal := if jsTruthy a then a else b

/-- JavaScript `a ?? b` (nullish coalescing). -/
def jsNullish (a b : JVal) : JVal :=
  match a with
  | .undefined => b
  | .null => b
  | _ => a

/-- Whitespace for `String.prototype.trim` (ASCII subset; the handler only
ever meets JSON strings, and no claim involves exotic Unicode spaces). -/
def jsWhite (c : Char) : Bool := c.isWhitespace

/-- `String.prototype.trim` on the underlying character list: drop leading
and trailing whitespace. -/
def jsTrimList (l : List Char) : List Char :=
  List.rdropWhile jsWhite (List.dropWhile jsWhite l)

/-- `String.prototype.trim`. -/
def jsTrim (s : String) : String := String.mk (jsTrimList s.data)

/-- Decimal rendering of a finite number.  Integral values render exactly as
ECMAScript does; non-integral values use the `Rat` notation (see the header
note: never observed by a claim). -/
def numToString (q : ℚ) : String := toString q

/-!
ECMAScript `String(v)` / `.toString()` on JSON-decoded values, with
`jsArrStrings` handling array elements: arrays join their elements with
`","`, rendering `null` and `undefined` elements as the empty string; plain
objects render as `"[object Object]"`.
-/
mutual

/-- ECMAScript `String(v)` on a JSON-decoded value. -/
def jsToString : JVal → String
  | .undefined => "undefined"
  | .null => "null"
  | .bool b => if b then "true" else "false"
  | .num q => numToString q
  | .str s => s
  | .arr xs => String.intercalate "," (jsArrStrings xs)
  | .obj _ => "[object Object]"

/-- Stringified elements of an array, `null` and `undefined` as `""`. -/
def jsArrStrings : JList → List String
  | .nil => []
  | .cons .undefined vs => "" :: jsArrStrings vs
  | .cons .null vs => "" :: jsArrStrings vs
  | .cons v vs => jsToString v :: jsArrStrings vs

end

/-- Digits-only decimal parse; `none` on the empty list or any non-digit. -/
def digitsToNat (cs : List Char) : Option ℕ :=
  match cs with
  | [] => none
  | _ =>
    cs.foldl
      (fun acc c =>
        acc.bind fun n => if c.isDigit then some (n * 10 + (c.toNat - 48)) else none)
      (some 0)

/-- Unsigned decimal literal: `"12"`, `"1.5"`, `".5"`, `"2."`. -/
def parseDecMag (cs : List Char) : Option ℚ :=
  match cs.span (fun c => c ≠ '.') with
  | (intPart, []) => (digitsToNat intPart).map fun n => (n : ℚ)
  | (intPart, _ :: fracPart) =>
    if intPart.isEmpty && fracPart.isEmpty then none
    else
      (if intPart.isEmpty then some 0 else digitsToNat intPart).bind fun ip =>
        (if fracPart.isEmpty then some 0 else digitsToNat fracPart).map fun fp =>
          (ip : ℚ) + (fp : ℚ) / ((10 : ℚ) ^ fracPart.length)

/-- Signed decimal literal. -/
def parseSignedDec (cs : List Char) : Option ℚ :=
  match cs with
  | '+' :: rest => parseDecMag rest
  | '-' :: rest => (parseDecMag rest).map Neg.neg
  | _ => parseDecMag cs

/-- ECMAScript `Number(string)`: trim, empty means `0`, `Infinity` forms,
else a decimal literal, else `NaN` (exponent/hex forms fall to `NaN`; see
the header note). -/
def strToNum (s : String) : JNum :=
  let t := jsTrim s
  if t = "" then .fin 0
  else if t = "Infinity" || t = "+Infinity" then .posInf
  else if t = "-Infinity" then .negInf
  else
    match parseSignedDec t.data with
    | some q => .fin q
    | none => .nan

/-- ECMAScript `Number(v)` on JSON-decoded values.  Arrays convert through
their string form; plain objects give `NaN`. -/
def toNumber : JVal → JNum
  | .undefined => .nan
  | .null => .fin 0
  | .bool b => .fin (if b then 1 else 0)
  | .num q => .fin q
  | .str s => strToNum s
  | .arr xs => strToNum (jsToString (.arr xs))
  | .obj _ => .nan

/-- Property access `v.k` on a non-optional receiver: throws (`.error`) on
`null`/`undefined`, looks the key up on objects, and yields `undefined` on
every other primitive and on arrays (for the key names used here). -/
def getField : JVal → String → Option JVal
  | .undefined, _ => none
  | .null, _ => none
  | .obj fs, k =>
    some (match fs.find k with
          | some v => v
          | none => .undefined)
  | _, _ => some .undefined

/-- Optional-chained access `v?.k`: `undefined` instead of a throw on
`null`/`undefined`. -/
def optMember (v : JVal) (k : String) : JVal :=
  match v with
  | .obj fs =>
    match fs.find k with
    | some v2 => v2
    | none => .undefined
  | _ => .undefined

/-- A normalized cart item (`norm` entry, `server/index.js` lines 210-214):
`productId` from `String(i.productId || i.id || i.name || "").trim()`,
`qty` from `Number(i.qty ?? i.quantity ?? 1)`,
`priceSnap` from `Number(i.price ?? 0)`. -/
structure NormItem : Type where
  productId : String
  qty : JNum
  priceSnap : JNum
  deriving Repr, DecidableEq

/-- Normalize one raw cart entry (the `map` body, lines 210-214).  Property
access throws when the entry is `null`/`undefined` (modelled as `none`, caught by the handler as a 500); JavaScript would short-circuit some of the accesses, but on a
non-null receiver none of them throws, so evaluating all of them is
equivalent. -/
def normItem (v : JVal) : Option NormItem := do
  let pidF ← getField v "productId"
  let idF ← getField v "id"
  let nameF ← getField v "name"
  let qtyF ← getField v "qty"
  let quantityF ← getField v "quantity"
  let priceF ← getField v "price"
  pure
    { productId := jsTrim (jsToString (jsOr pidF (jsOr idF (jsOr nameF (.str "")))))
      qty := toNumber (jsNullish qtyF (jsNullish quantityF (.num 1)))
      priceSnap := toNumber (jsNullish priceF (.num 0)) }

/-- Payload shape selection (lines 204-207): a bare array, else `body.items`
if it is an array, else `body.cart` if it is an array, else empty. -/
def selectItems (body : JVal) : List JVal :=
  match body with
  | .arr xs => xs.toList
  | _ =>
    match optMember body "items" with
    | .arr xs => xs.toList
    | _ =>
      match optMember body "cart" with
      | .arr xs => xs.toList
      | _ => []

/-- A catalog row (the `Product` model): only the columns the checkout
handler reads.  The price is carried as a runtime number so that the
handler's `Number.isFinite` guard keeps its meaning. -/
structure Product : Type where
  id : String
  price : JNum
  deriving Repr, DecidableEq

/-- `Object.fromEntries(found.map(p => [p.id, p.price]))` followed by key
lookup (lines 230, 234): later entries overwrite earlier ones, a missing key
reads as `undefined` (here `none`). -/
def fromEntries (l : List (String × JNum)) (k : String) : Option JNum :=
  (List.filter (fun e => e.1 = k) l).getLast?.map (fun e => e.2)

/-- The price map the handler builds for a normalized cart (lines 226-230):
fetch the catalog rows whose id is among the truthy normalized ids, then
turn them into a lookup table. -/
def checkoutPriceMap (catalog : List Product) (norm : List NormItem) :
    String → Option JNum :=
  let ids := (norm.filter fun i => i.productId ≠ "").map fun i => i.productId
  let found := catalog.filter fun p => p.id ∈ ids
  fromEntries (found.map fun p => (p.id, p.price))

/-- Resolved unit price of an item (the identical expression at lines
234-235 and 252-254): the fetched catalog price when finite, else the
client snapshot when finite, else `0`. -/
def resolvedUnit (pm : String → Option JNum) (i : NormItem) : ℚ :=
  match pm i.productId with
  | some (.fin q) => q
  | _ =>
    match i.priceSnap with
    | .fin p => p
    | _ => 0

/-- Effective quantity of an item (the identical expression at lines 236 and
251): the normalized quantity when finite and strictly positive, else `1`. -/
def effectiveQty (i : NormItem) : ℚ :=
  match i.qty with
  | .fin q => if 0 < q then q else 1
  | _ => 1

/-- `Math.round` (half toward positive infinity) on a finite number. -/
def jsRound (q : ℚ) : ℤ := ⌊q + 1 / 2⌋

/-- The `total` reduce (lines 233-238). -/
def checkoutTotal (pm : String → Option JNum) (norm : List NormItem) : ℚ :=
  norm.foldl (fun sum i => sum + resolvedUnit pm i * effectiveQty i) 0

/-- A persisted order item row (lines 249-255). -/
structure OrderItemRec : Type where
  productId : String
  qty : ℚ
  price : ℚ
  deriving Repr, DecidableEq

/-- A persisted order row (lines 241-257). -/
structure OrderRec : Type where
  campus : String
  pickup : String
  paymentMethod : String
  gcashNumber : Option String
  total : ℤ
  items : List OrderItemRec
  deriving Repr, DecidableEq

/-- Top-level string field with default (lines 198-201):
`(req.body?.f || dflt).toString()`. -/
def headerString (v : JVal) (dflt : String) : String :=
  jsToString (jsOr v (.str dflt))

/-- Handler outcome: `ok` mirrors the 200 JSON response (carrying the order
it persisted), `invalid` the 422 response echoing the received body, and
`serverError` the catch-all 500. -/
inductive Response : Type where
  | ok : OrderRec → Response
  | invalid : JVal → Response
  | serverError : Response

/-- HTTP status code of an outcome. -/
def statusOf : Response → ℕ
  | .ok _ => 200
  | .invalid _ => 422
  | .serverError => 500

/-- The order row `prisma.order.create` persists (lines 241-257): header
fields with their defaults (lines 198-201), the `gcashNumber` guard (line
246), the clamped rounded total (line 247), and the nested item rows (lines
248-256). -/
def buildOrder (catalog : List Product) (body : JVal) (norm : List NormItem) :
    OrderRec :=
  let paymentMethod := headerString (optMember body "paymentMethod") "gcash"
  let pm := checkoutPriceMap catalog norm
  { campus := headerString (optMember body "campus") "ADMU"
    pickup := headerString (optMember body "pickup") "Gate 2.5"
    paymentMethod := paymentMethod
    gcashNumber :=
      if paymentMethod = "gcash" then some (headerString (optMember body "gcashNumber") "")
      else none
    total := max 0 (jsRound (checkoutTotal pm norm))
    items := norm.map fun i =>
      { productId := if i.productId = "" then "UNKNOWN" else i.productId
        qty := effectiveQty i
        price := resolvedUnit pm i } }

/-- The `POST /api/cart/checkout` handler (lines 194-278) against a given
catalog: shape selection, normalization (a thrown `TypeError` lands in the
catch-all 500), the empty-cart 422 guard (before any catalog read), then
the order creation. -/
def checkout (catalog : List Product) (body : JVal) : Response :=
  match (selectItems body).mapM normItem with
  | none => .serverError
  | some norm =>
    if norm.length = 0 then .invalid body
    else .ok (buildOrder catalog body norm)

/-- One handler invocation against an order store: `prisma.order.create`
appends the new row atomically; every non-`ok` outcome leaves the store
untouched. -/
def checkoutStep (catalog : List Product) (store : List OrderRec) (body : JVal) :
    Response × List OrderRec :=
  match checkout catalog body with
  | .ok ord => (.ok ord, store ++ [ord])
  | r => (r, store)

/-! ## Support definitions for the claims -/

/-- The value of property `k` on a non-nullish receiver (`undefined` when
absent). -/
def fieldVal (v : JVal) (k : String) : JVal :=
  match getField v k with
  | some x => x
  | none => .undefined

/-- Sum of `price * qty` over persisted order item rows. -/
def itemSum (items : List OrderItemRec) : ℚ :=
  (items.map fun it => it.price * it.qty).sum

/-- The identifier rule as the claim words it: the first non-empty (truthy)
of the three identifier fields, coerced to a string and trimmed; the empty
string when none qualifies. -/
def specIdentifier (pid idv nam : JVal) : String :=
  match List.find? jsTruthy [pid, idv, nam] with
  | some x => jsTrim (jsToString x)
  | none => ""

/-- Concrete cart for the C1 witness: one item, id `p1`, qty 2, price 50. -/
def c1Body : JVal :=
  .arr (jarr [.obj (jobj [("id", .str "p1"), ("qty", .num 2), ("price", .num 50)])])

/-- Normalization of `c1Body`. -/
def c1Norm : List NormItem := [⟨"p1", .fin 2, .fin 50⟩]

/-- Cart carrying a negative client price snapshot for a product the
catalog does not know. -/
def c2Body : JVal :=
  .obj (jobj [("items", .arr (jarr [.obj (jobj [("id", .str "p1"), ("price", .num (-50))])]))])

/-- The order the handler persists for `c2Body` against an empty catalog. -/
def c2Order : OrderRec :=
  { campus := "ADMU", pickup := "Gate 2.5", paymentMethod := "gcash"
    gcashNumber := some "", total := 0
    items := [{ productId := "p1", qty := 1, price := -50 }] }

/-- Ordinary positive-price cart for the C2 witness. -/
def c2wBody : JVal :=
  .arr (jarr [.obj (jobj [("id", .str "a"), ("price", .num 3)])])

/-- The order the handler persists for `c2wBody` against an empty catalog. -/
def c2wOrder : OrderRec :=
  { campus := "ADMU", pickup := "Gate 2.5", paymentMethod := "gcash"
    gcashNumber := some "", total := 3
    items := [{ productId := "a", qty := 1, price := 3 }] }

/-- Price map for the C4 witness: `p2` priced 40. -/
def c4pm : String → Option JNum := fun k => if k = "p2" then some (.fin 40) else none

/-- Normalized item for the C4 witness. -/
def c4item : NormItem := ⟨"p2", .fin 3, .fin 1⟩

/-- The spec scenario payload for C6. -/
def c6Body : JVal :=
  .obj (jobj [("cart", .arr (jarr
    [.obj (jobj [("name", .str "x"), ("qty", .num 0), ("price", .num 10)])]))])

/-- Normalization of `c6Body`. -/
def c6Norm : List NormItem := [⟨"x", .fin 0, .fin 10⟩]

/-- Raw cart entry with zero quantity and negative price. -/
def c7Raw : JVal :=
  .obj (jobj [("name", .str "x"), ("qty", .num 0), ("price", .num (-5))])

/-- Normalization of `c7Raw`. -/
def c7Norm : NormItem := ⟨"x", .fin 0, .fin (-5)⟩

/-- Raw cart entry whose `productId` is the number `0` (falsy). -/
def c8RawA : JVal := .obj (jobj [("productId", .num 0), ("id", .str "abc")])

/-- Raw cart entry whose only identifier is a whitespace-only name. -/
def c8RawB : JVal := .obj (jobj [("name", .str "   ")])

/-- Checkout body with a non-gcash payment method for the C9 witness. -/
def c9wBody : JVal :=
  .obj (jobj [("paymentMethod", .str "cash"),
    ("items", .arr (jarr [.obj (jobj [("id", .str "b"), ("price", .num 5)])]))])

/-- The order the handler persists for `c9wBody` against an empty catalog. -/
def c9wOrder : OrderRec :=
  { campus := "ADMU", pickup := "Gate 2.5", paymentMethod := "cash"
    gcashNumber := none, total := 5
    items := [{ productId := "b", qty := 1, price := 5 }] }

/-- Bare-array checkout body for the C10 witness. -/
def c10L : JList := jarr [.obj (jobj [("id", .str "k")])]

/-- The order the handler persists for `JVal.arr c10L` against an empty
catalog. -/
def c10Order : OrderRec :=
  { campus := "ADMU", pickup := "Gate 2.5", paymentMethod := "gcash"
    gcashNumber := some "", total := 0
    items := [{ productId := "k", qty := 1, price := 0 }] }

/-! ## Helper lemmas -/

theorem foldl_add_eq_sum (f : NormItem → ℚ) (l : List NormItem) (a : ℚ) :
    l.foldl (fun s i => s + f i) a = a + (l.map f).sum := by
  induction l generalizing a with
  | nil => simp
  | cons x xs ih => simp [ih, add_assoc]

theorem checkoutTotal_eq_sum (pm : String → Option JNum) (norm : List NormItem) :
    checkoutTotal pm norm =
      (norm.map fun i => resolvedUnit pm i * effectiveQty i).sum := by
  simpa [checkoutTotal] using
    foldl_add_eq_sum (fun i => resolvedUnit pm i * effectiveQty i) norm 0

theorem dropWhile_jsTrimList (l : List Char) :
    List.dropWhile jsWhite (jsTrimList l) = jsTrimList l := by
  rw [List.dropWhile_eq_self_iff]
  intro hl
  have hpre : jsTrimList l <+: List.dropWhile jsWhite l :=
    List.rdropWhile_prefix jsWhite (List.dropWhile jsWhite l)
  have hlen : 0 < (List.dropWhile jsWhite l).length :=
    lt_of_lt_of_le hl hpre.length_le
  have hnot := List.dropWhile_get_zero_not (p := jsWhite) l hlen
  have hg : (jsTrimList l).get ⟨0, hl⟩ =
      (List.dropWhile jsWhite l).get ⟨0, hlen⟩ := by
    simp only [List.get_eq_getElem]
    exact hpre.getElem hl
  rw [hg]
  exact hnot

theorem jsTrimList_idem (l : List Char) :
    jsTrimList (jsTrimList l) = jsTrimList l := by
  have h1 : jsTrimList (jsTrimList l) =
      List.rdropWhile jsWhite (jsTrimList l) := by
    rw [jsTrimList, dropWhile_jsTrimList]
  rw [h1, jsTrimList, List.rdropWhile_idempotent]

theorem jsTrim_idem (s : String) : jsTrim (jsTrim s) = jsTrim s := by
  show String.mk (jsTrimList (jsTrimList s.data)) = String.mk (jsTrimList s.data)
  rw [jsTrimList_idem]

theorem getField_eq (v : JVal) (k : String) (h1 : v ≠ .null) (h2 : v ≠ .undefined) :
    getField v k = some (fieldVal v k) := by
  cases v <;> first | rfl | exact absurd rfl h1 | exact absurd rfl h2

/-- On a non-nullish raw entry, normalization succeeds and produces exactly
the coerced record. -/
theorem normItem_eq (v : JVal) (h1 : v ≠ .null) (h2 : v ≠ .undefined) :
    normItem v = some
      { productId := jsTrim (jsToString (jsOr (fieldVal v "productId")
          (jsOr (fieldVal v "id") (jsOr (fieldVal v "name") (.str "")))))
        qty := toNumber (jsNullish (fieldVal v "qty")
          (jsNullish (fieldVal v "quantity") (.num 1)))
        priceSnap := toNumber (jsNullish (fieldVal v "price") (.num 0)) } := by
  cases v <;> first | rfl | exact absurd rfl h1 | exact absurd rfl h2

theorem normItem_some_inv (v : JVal) (n : NormItem) (h : normItem v = some n) :
    v ≠ .null ∧ v ≠ .undefined := by
  constructor <;> rintro rfl <;> cases h

/-- Unfolding the handler on a successful non-empty normalization. -/
theorem checkout_ok (catalog : List Product) (body : JVal) (norm : List NormItem)
    (h : (selectItems body).mapM normItem = some norm) (hne : norm ≠ []) :
    checkout catalog body = .ok (buildOrder catalog body norm) := by
  unfold checkout
  rw [h]
  show (if norm.length = 0 then Response.invalid body
        else Response.ok (buildOrder catalog body norm)) =
      Response.ok (buildOrder catalog body norm)
  rw [if_neg (by simpa [List.length_eq_zero] using hne)]

/-- Inverting the handler on a successful response. -/
theorem checkout_ok_inv (catalog : List Product) (body : JVal) (ord : OrderRec)
    (h : checkout catalog body = .ok ord) :
    ∃ norm : List NormItem, (selectItems body).mapM normItem = some norm ∧
      norm ≠ [] ∧ ord = buildOrder catalog body norm := by
  unfold checkout at h
  cases hm : (selectItems body).mapM normItem with
  | none => rw [hm] at h; cases h
  | some norm =>
    rw [hm] at h
    have h2 : (if norm.length = 0 then Response.invalid body
        else Response.ok (buildOrder catalog body norm)) = Response.ok ord := h
    by_cases hn : norm.length = 0
    · rw [if_pos hn] at h2; cases h2
    · rw [if_neg hn] at h2
      refine ⟨norm, rfl, ?_, ?_⟩
      · simpa [← List.length_eq_zero] using hn
      · cases h2; rfl

/-! ## Claim theorems -/

/-- C1: for every checkout request whose body normalizes to a non-empty item
list, the handler succeeds and the computed order total equals the sum over
all normalized items of resolved unit price times effective quantity,
rounded to the nearest integer and then floored at 0. -/
theorem c1_total_is_clamped_rounded_sum (catalog : List Product) (body : JVal)
    (norm : List NormItem)
    (h : (selectItems body).mapM normItem = some norm) (hne : norm ≠ []) :
    ∃ ord : OrderRec, checkout catalog body = .ok ord ∧
      ord.total = max 0 (jsRound ((norm.map fun i =>
        resolvedUnit (checkoutPriceMap catalog norm) i * effectiveQty i).sum)) := by
  refine ⟨buildOrder catalog body norm, checkout_ok catalog body norm h hne, ?_⟩
  show max 0 (jsRound (checkoutTotal (checkoutPriceMap catalog norm) norm)) = _
  rw [checkoutTotal_eq_sum]

/-- C1 witness: the total formula instantiated on a concrete cart. -/
theorem c1_total_is_clamped_rounded_sum_witness :
    ∃ ord : OrderRec, checkout [] c1Body = .ok ord ∧
      ord.total = max 0 (jsRound ((c1Norm.map fun i =>
        resolvedUnit (checkoutPriceMap [] c1Norm) i * effectiveQty i).sum)) :=
  c1_total_is_clamped_rounded_sum [] c1Body c1Norm (by decide) (by decide)

/-- C3: a bare-list payload, an `items`-wrapper payload and a `cart`-wrapper
payload around the same raw list normalize to the same item list (same
length, order and per-position fields). -/
theorem c3_payload_shapes_agree (L : JList) :
    (selectItems (.obj (jobj [("items", .arr L)]))).mapM normItem =
      (selectItems (.arr L)).mapM normItem ∧
    (selectItems (.obj (jobj [("cart", .arr L)]))).mapM normItem =
      (selectItems (.arr L)).mapM normItem := by
  constructor <;> rfl

/-- C5: a body whose shape selection yields no list is rejected with the
422 diagnostic response echoing the body, the order store is left
unchanged, and the outcome does not depend on the catalog at all (no
catalog read can influence it). -/
theorem c5_empty_cart_rejected (catalog : List Product) (store : List OrderRec)
    (body : JVal) (h : selectItems body = []) :
    checkoutStep catalog store body = (.invalid body, store) ∧
    statusOf (checkout catalog body) = 422 ∧
    ∀ catalog2 : List Product, checkout catalog2 body = checkout catalog body := by
  have hc : ∀ c : List Product, checkout c body = .invalid body := by
    intro c
    unfold checkout
    rw [h]
    rfl
  refine ⟨?_, ?_, fun catalog2 => by rw [hc, hc]⟩
  · unfold checkoutStep
    rw [hc]
  · rw [hc]
    rfl

/-- C5 witness: the empty-object payload (the spec's `{}` scenario). -/
theorem c5_empty_cart_rejected_witness :
    checkoutStep [] [] (.obj .nil) = (.invalid (.obj .nil), []) ∧
    statusOf (checkout [] (.obj .nil)) = 422 ∧
    ∀ catalog2 : List Product, checkout catalog2 (.obj .nil) = checkout [] (.obj .nil) :=
  c5_empty_cart_rejected [] [] (.obj .nil) (by rfl)

/-- C2 counterexample: the checkout of `c2Body` (one unmatched item with a
negative client price snapshot) is accepted and persists `c2Order`, whose
total (0) differs from the rounded sum of its items' `price * qty` (-50):
the claimed invariant `Order.total = round(sum(price * qty))` fails. -/
theorem c2_invariant_counterexample :
    checkout [] c2Body = .ok c2Order ∧
    c2Order.total = 0 ∧
    jsRound (itemSum c2Order.items) = -50 ∧
    c2Order.total ≠ jsRound (itemSum c2Order.items) := by
  have h50 : jsRound (itemSum c2Order.items) = -50 := by with_unfolding_all rfl
  refine ⟨by with_unfolding_all rfl, rfl, h50, ?_⟩
  rw [h50]
  decide

/-- C2 (amended): for every persisted order, `Order.total` equals
`max(0, round(sum(item.price * item.qty)))` over its items and is never
negative; the plain `round(sum)` equality holds exactly when the rounded
sum is non-negative (a negative client price snapshot can make it fail). -/
theorem c2_total_consistent_with_items (catalog : List Product) (body : JVal)
    (ord : OrderRec) (h : checkout catalog body = .ok ord) :
    ord.total = max 0 (jsRound (itemSum ord.items)) ∧
    0 ≤ ord.total ∧
    (0 ≤ jsRound (itemSum ord.items) → ord.total = jsRound (itemSum ord.items)) := by
  obtain ⟨norm, hm, hne, rfl⟩ := checkout_ok_inv catalog body ord h
  have hsum : itemSum (buildOrder catalog body norm).items =
      checkoutTotal (checkoutPriceMap catalog norm) norm := by
    rw [checkoutTotal_eq_sum]
    simp only [itemSum, buildOrder, List.map_map]
    rfl
  have htot : (buildOrder catalog body norm).total =
      max 0 (jsRound (itemSum (buildOrder catalog body norm).items)) := by
    rw [hsum]; rfl
  refine ⟨htot, ?_, ?_⟩
  · rw [htot]; exact le_max_left 0 _
  · intro h0
    rw [htot, max_eq_right h0]

/-- C2 witness: the amended consistency at a concrete positive-price cart. -/
theorem c2_total_consistent_with_items_witness :
    c2wOrder.total = max 0 (jsRound (itemSum c2wOrder.items)) ∧
    0 ≤ c2wOrder.total ∧
    (0 ≤ jsRound (itemSum c2wOrder.items) →
      c2wOrder.total = jsRound (itemSum c2wOrder.items)) :=
  c2_total_consistent_with_items [] c2wBody c2wOrder (by with_unfolding_all rfl)

/-- C4: the resolved unit price is the catalog price whenever the
identifier matched a fetched entry with a finite price — regardless of the
client snapshot — and otherwise the finite client snapshot, else 0; and the
per-item prices persisted on any successful order are exactly these
resolved prices (an unmatched identifier is not an error: no matching
hypothesis is needed for success). -/
theorem c4_price_resolution (pm : String → Option JNum) (i : NormItem) :
    (∀ q : ℚ, pm i.productId = some (.fin q) →
      resolvedUnit pm i = q ∧
      ∀ s : JNum, resolvedUnit pm { i with priceSnap := s } = q) ∧
    ((∀ q : ℚ, pm i.productId ≠ some (.fin q)) →
      resolvedUnit pm i =
        match i.priceSnap with
        | .fin p => p
        | _ => 0) ∧
    ∀ (catalog : List Product) (body : JVal) (norm : List NormItem),
      (selectItems body).mapM normItem = some norm → norm ≠ [] →
      ∃ ord : OrderRec, checkout catalog body = .ok ord ∧
        ord.items.map (fun it => it.price) =
          norm.map (resolvedUnit (checkoutPriceMap catalog norm)) := by
  refine ⟨?_, ?_, ?_⟩
  · intro q hq
    constructor
    · rw [resolvedUnit, hq]
    · intro s
      show (match pm i.productId with
            | some (.fin q2) => q2
            | _ => match s with
                   | .fin p => p
                   | _ => 0) = q
      rw [hq]
  · intro hq
    cases hpm : pm i.productId with
    | none => rw [resolvedUnit, hpm]
    | some jn =>
      cases jn with
      | fin q => exact absurd hpm (hq q)
      | nan => rw [resolvedUnit, hpm]
      | posInf => rw [resolvedUnit, hpm]
      | negInf => rw [resolvedUnit, hpm]
  · intro catalog body norm hm hne
    refine ⟨buildOrder catalog body norm, checkout_ok catalog body norm hm hne, ?_⟩
    simp only [buildOrder, List.map_map]
    rfl

/-- C4 witness: with `p2` priced 40 in the fetched map, the resolved price
is 40 whatever the snapshot; and a concrete unmatched checkout succeeds
with the snapshot prices persisted. -/
theorem c4_price_resolution_witness :
    (resolvedUnit c4pm c4item = 40 ∧
      resolvedUnit c4pm { c4item with priceSnap := .fin 999 } = 40) ∧
    ∃ ord : OrderRec, checkout [] c1Body = .ok ord ∧
      ord.items.map (fun it => it.price) =
        c1Norm.map (resolvedUnit (checkoutPriceMap [] c1Norm)) :=
  ⟨⟨((c4_price_resolution c4pm c4item).1 40 (by decide)).1,
    ((c4_price_resolution c4pm c4item).1 40 (by decide)).2 (.fin 999)⟩,
   (c4_price_resolution c4pm c4item).2.2 [] c1Body c1Norm (by decide) (by decide)⟩

/-- A key absent from the entry list reads as `undefined`. -/
theorem fromEntries_eq_none (l : List (String × JNum)) (k : String)
    (h : ∀ e ∈ l, e.1 ≠ k) : fromEntries l k = none := by
  have hf : List.filter (fun e => decide (e.1 = k)) l = [] := by
    simp only [List.filter_eq_nil_iff]
    intro a ha
    simp [h a ha]
  show (List.filter (fun e => decide (e.1 = k)) l).getLast?.map (fun e => e.2) = none
  rw [hf]
  rfl

/-- An identifier no catalog row carries is unmatched in the price map. -/
theorem checkoutPriceMap_unmatched (catalog : List Product) (norm : List NormItem)
    (k : String) (hk : ∀ p ∈ catalog, p.id ≠ k) :
    checkoutPriceMap catalog norm k = none := by
  refine fromEntries_eq_none _ k ?_
  intro e he
  obtain ⟨p, hp, rfl⟩ := List.mem_map.mp he
  exact hk p (List.mem_of_mem_filter hp)

/-- C6: a raw entry whose `qty`/`quantity` fields are both missing, or whose
coerced quantity is not a finite positive number, gets effective quantity 1;
and the spec scenario `{cart: [{name: "x", qty: 0, price: 10}]}` with `x`
unmatched in the catalog totals 10. -/
theorem c6_default_quantity (v : JVal) (n : NormItem) :
    (normItem v = some n →
      (fieldVal v "qty" = .undefined → fieldVal v "quantity" = .undefined →
        n.qty = .fin 1 ∧ effectiveQty n = 1) ∧
      ((∀ q : ℚ, n.qty = .fin q → ¬ 0 < q) → effectiveQty n = 1)) ∧
    ∀ catalog : List Product, (∀ p ∈ catalog, p.id ≠ "x") →
      ∃ ord : OrderRec, checkout catalog c6Body = .ok ord ∧ ord.total = 10 := by
  constructor
  · intro h
    obtain ⟨hv1, hv2⟩ := normItem_some_inv v n h
    rw [normItem_eq v hv1 hv2] at h
    constructor
    · intro hq hquan
      cases h
      rw [hq, hquan]
      exact ⟨rfl, rfl⟩
    · intro hq
      cases hqty : n.qty with
      | fin q => simp only [effectiveQty, hqty, if_neg (hq q hqty)]
      | nan => simp only [effectiveQty, hqty]
      | posInf => simp only [effectiveQty, hqty]
      | negInf => simp only [effectiveQty, hqty]
  · intro catalog hx
    have hm : (selectItems c6Body).mapM normItem = some c6Norm := by decide
    have hne : c6Norm ≠ [] := by decide
    have hpm : checkoutPriceMap catalog c6Norm "x" = none :=
      checkoutPriceMap_unmatched catalog c6Norm "x" hx
    have hru : resolvedUnit (checkoutPriceMap catalog c6Norm)
        ⟨"x", .fin 0, .fin 10⟩ = 10 := by
      simp only [resolvedUnit, hpm]
    have heff : effectiveQty ⟨"x", .fin 0, .fin 10⟩ = 1 := by
      norm_num [effectiveQty]
    have hmap : (List.map (fun i => resolvedUnit (checkoutPriceMap catalog c6Norm) i *
        effectiveQty i) c6Norm).sum = 10 := by
      rw [show List.map (fun i => resolvedUnit (checkoutPriceMap catalog c6Norm) i *
            effectiveQty i) c6Norm =
          [resolvedUnit (checkoutPriceMap catalog c6Norm) ⟨"x", .fin 0, .fin 10⟩ *
            effectiveQty ⟨"x", .fin 0, .fin 10⟩] from rfl]
      rw [List.sum_singleton, hru, heff]
      norm_num
    have htot : (buildOrder catalog c6Body c6Norm).total = 10 := by
      show max 0 (jsRound (checkoutTotal (checkoutPriceMap catalog c6Norm) c6Norm)) = 10
      rw [checkoutTotal_eq_sum, hmap]
      norm_num [jsRound]
    exact ⟨buildOrder catalog c6Body c6Norm,
      checkout_ok catalog c6Body c6Norm hm hne, htot⟩

/-- C6 witness: the effective quantity of a concrete quantity-free entry,
and the scenario against the empty catalog. -/
theorem c6_default_quantity_witness :
    ((⟨"abc", .fin 1, .fin 0⟩ : NormItem).qty = .fin 1 ∧
      effectiveQty ⟨"abc", .fin 1, .fin 0⟩ = 1) ∧
    ∃ ord : OrderRec, checkout [] c6Body = .ok ord ∧ ord.total = 10 :=
  ⟨((c6_default_quantity c8RawA ⟨"abc", .fin 1, .fin 0⟩).1 (by decide)).1
      (by rfl) (by rfl),
   (c6_default_quantity c8RawA ⟨"abc", .fin 1, .fin 0⟩).2 [] (by simp)⟩

/-- The effective quantity is strictly positive for every normalized item. -/
theorem effectiveQty_pos (n : NormItem) : 0 < effectiveQty n := by
  cases hq : n.qty with
  | fin q =>
    simp only [effectiveQty, hq]
    by_cases h0 : 0 < q
    · rw [if_pos h0]; exact h0
    · rw [if_neg h0]; norm_num
  | nan => simp only [effectiveQty, hq]; norm_num
  | posInf => simp only [effectiveQty, hq]; norm_num
  | negInf => simp only [effectiveQty, hq]; norm_num

/-- An unmatched item with a non-finite snapshot resolves to price 0. -/
theorem resolvedUnit_unmatched_nonfin (pm : String → Option JNum) (n : NormItem)
    (hpm : pm n.productId = none) (hsnap : ∀ p : ℚ, n.priceSnap ≠ .fin p) :
    resolvedUnit pm n = 0 := by
  cases hps : n.priceSnap with
  | fin p => exact absurd hps (hsnap p)
  | nan => simp only [resolvedUnit, hpm, hps]
  | posInf => simp only [resolvedUnit, hpm, hps]
  | negInf => simp only [resolvedUnit, hpm, hps]

/-- C7 counterexample: the entry `{name: "x", qty: 0, price: -5}` normalizes
with `qty = 0` (not positive, not replaced by 1 in the normalized item) and
`priceSnap = -5` (negative, not replaced by 0): the claimed NormalizedItem
invariants fail on the normalization the code actually produces. -/
theorem c7_invariants_counterexample :
    normItem c7Raw = some c7Norm ∧
    c7Norm.qty = .fin 0 ∧ ¬ (0 : ℚ) < 0 ∧
    c7Norm.priceSnap = .fin (-5) ∧ (-5 : ℚ) < 0 := by
  refine ⟨by decide, rfl, by norm_num, rfl, by norm_num⟩

/-- C7 (amended): every normalized item has a trimmed `productId` (possibly
empty); `qty` and `priceSnap` are the raw coerced numbers, which may be
zero, negative or non-finite, and the defaults apply at use instead: the
effective quantity is always strictly positive (1 when the raw quantity is
not a finite positive number), and a non-finite snapshot resolves to unit
price 0 when the identifier is unmatched. -/
theorem c7_normalized_item_shape (v : JVal) (n : NormItem)
    (h : normItem v = some n) :
    jsTrim n.productId = n.productId ∧
    0 < effectiveQty n ∧
    ∀ pm : String → Option JNum, pm n.productId = none →
      (∀ p : ℚ, n.priceSnap ≠ .fin p) → resolvedUnit pm n = 0 := by
  obtain ⟨hv1, hv2⟩ := normItem_some_inv v n h
  rw [normItem_eq v hv1 hv2] at h
  injection h with h
  subst h
  exact ⟨jsTrim_idem _, effectiveQty_pos _,
    fun pm hpm hsnap => resolvedUnit_unmatched_nonfin pm _ hpm hsnap⟩

/-- C7 witness: the amended shape at the zero-qty negative-price entry. -/
theorem c7_normalized_item_shape_witness :
    jsTrim c7Norm.productId = c7Norm.productId ∧
    0 < effectiveQty c7Norm ∧
    ∀ pm : String → Option JNum, pm c7Norm.productId = none →
      (∀ p : ℚ, c7Norm.priceSnap ≠ .fin p) → resolvedUnit pm c7Norm = 0 :=
  c7_normalized_item_shape c7Raw c7Norm (by decide)

/-- C8: the normalized identifier is the first truthy (non-empty) of
`productId`, `id`, `name`, coerced to a string and trimmed, and is the empty
string when none of the three is truthy (in particular when all are
absent). -/
theorem c8_identifier_rule (v : JVal) (n : NormItem) (h : normItem v = some n) :
    n.productId =
      specIdentifier (fieldVal v "productId") (fieldVal v "id") (fieldVal v "name") ∧
    (jsTruthy (fieldVal v "productId") = false → jsTruthy (fieldVal v "id") = false →
      jsTruthy (fieldVal v "name") = false → n.productId = "") := by
  obtain ⟨hv1, hv2⟩ := normItem_some_inv v n h
  rw [normItem_eq v hv1 hv2] at h
  injection h with h
  subst h
  have key : ∀ a b c : JVal,
      jsTrim (jsToString (jsOr a (jsOr b (jsOr c (.str ""))))) =
        specIdentifier a b c := by
    intro a b c
    cases ha : jsTruthy a with
    | true => simp [specIdentifier, jsOr, List.find?, ha]
    | false =>
      cases hb : jsTruthy b with
      | true => simp [specIdentifier, jsOr, List.find?, ha, hb]
      | false =>
        cases hc : jsTruthy c with
        | true => simp [specIdentifier, jsOr, List.find?, ha, hb, hc]
        | false =>
          have hempty : jsTrim (jsToString (JVal.str "")) = "" := by decide
          simp [specIdentifier, jsOr, List.find?, ha, hb, hc, hempty]
  refine ⟨key _ _ _, ?_⟩
  intro h1 h2 h3
  rw [key]
  simp [specIdentifier, List.find?, h1, h2, h3]

/-- C8 witness: a falsy numeric-0 `productId` falls through to `id`, and a
whitespace-only `name` trims to the empty identifier. -/
theorem c8_identifier_rule_witness :
    ((⟨"abc", .fin 1, .fin 0⟩ : NormItem).productId =
      specIdentifier (fieldVal c8RawA "productId") (fieldVal c8RawA "id")
        (fieldVal c8RawA "name")) ∧
    ((⟨"", .fin 1, .fin 0⟩ : NormItem).productId =
      specIdentifier (fieldVal c8RawB "productId") (fieldVal c8RawB "id")
        (fieldVal c8RawB "name")) :=
  ⟨(c8_identifier_rule c8RawA ⟨"abc", .fin 1, .fin 0⟩ (by decide)).1,
   (c8_identifier_rule c8RawB ⟨"", .fin 1, .fin 0⟩ (by decide)).1⟩

/-- C9: on every successfully created order, the payment account number is
stored exactly when the payment method is `"gcash"` (then it is the
submitted value, default empty string); for any other method it is null. -/
theorem c9_gcash_number_guard (catalog : List Product) (body : JVal)
    (ord : OrderRec) (h : checkout catalog body = .ok ord) :
    (ord.paymentMethod = "gcash" →
      ord.gcashNumber = some (headerString (optMember body "gcashNumber") "")) ∧
    (ord.paymentMethod ≠ "gcash" → ord.gcashNumber = none) := by
  obtain ⟨norm, hm, hne, rfl⟩ := checkout_ok_inv catalog body ord h
  constructor
  · intro hp
    have hp2 : headerString (optMember body "paymentMethod") "gcash" = "gcash" := hp
    show (if headerString (optMember body "paymentMethod") "gcash" = "gcash"
          then some (headerString (optMember body "gcashNumber") "") else none) =
        some (headerString (optMember body "gcashNumber") "")
    rw [if_pos hp2]
  · intro hp
    have hp2 : ¬ headerString (optMember body "paymentMethod") "gcash" = "gcash" := hp
    show (if headerString (optMember body "paymentMethod") "gcash" = "gcash"
          then some (headerString (optMember body "gcashNumber") "") else none) = none
    rw [if_neg hp2]

/-- C9 witness: a non-gcash payment method stores no account number. -/
theorem c9_gcash_number_guard_witness : c9wOrder.gcashNumber = none :=
  (c9_gcash_number_guard [] c9wBody c9wOrder (by with_unfolding_all rfl)).2
    (by decide)

/-- C10: a bare-array body cannot carry header fields, so every order it
creates has campus "ADMU", pickup "Gate 2.5", payment method "gcash", and
the empty-string account number stored. -/
theorem c10_array_body_defaults (catalog : List Product) (L : JList)
    (ord : OrderRec) (h : checkout catalog (.arr L) = .ok ord) :
    ord.campus = "ADMU" ∧ ord.pickup = "Gate 2.5" ∧
    ord.paymentMethod = "gcash" ∧ ord.gcashNumber = some "" := by
  obtain ⟨norm, hm, hne, rfl⟩ := checkout_ok_inv catalog (.arr L) ord h
  exact ⟨rfl, rfl, rfl, rfl⟩

/-- C10 witness: the defaults on a concrete bare-array checkout. -/
theorem c10_array_body_defaults_witness :
    c10Order.campus = "ADMU" ∧ c10Order.pickup = "Gate 2.5" ∧
    c10Order.paymentMethod = "gcash" ∧ c10Order.gcashNumber = some "" :=
  c10_array_body_defaults [] c10L c10Order (by with_unfolding_all rfl)

end UniThrift
